import Mathlib

/-!
Verification of the p4-common power HAL (`power/power.c`).

The C file maintains three global byte buffers of size `MAX_BUF_SZ = 10`
(`screen_off_max_freq`, `scaling_max_freq`, `normal_max_freq`) and a global
flag `low_power_mode`, and exposes three entry points (`p3_power_init`,
`p3_power_set_interactive`, `p3_power_hint`) that read and write four fixed
sysfs control files.

Shallow embedding used here:
* C byte buffers and strings are `List Nat` (byte values; a C string's
  terminating NUL is the byte 0, so the 10-byte array `"456000"` is the
  6 ASCII digits followed by four 0 bytes).
* The sysfs file system is a structure `Sys`: a content map
  `files : Path → Option (List Nat)` (`none` = open fails, the path is
  missing) plus per-path flags `readOk` / `writeOk` that let a read or
  write syscall fail even when the open succeeded.
* `sysfs_read` / `sysfs_write` mirror the C helpers: `sysfs_read` reads at
  most `size` bytes and zero-pads the tail of the buffer only when fewer
  than `size` bytes were read; `sysfs_write` writes `strlen(s)` bytes and
  on success replaces the file's content.  A failed write leaves the file
  unchanged (the C code ignores the return value of every `sysfs_write`
  call it makes).
* Each entry point returns the new file system, the new global state and a
  trace of the writes it *attempted* (one entry per `sysfs_write` call, in
  program order, with the bytes passed to the write syscall), so that
  best-effort / failure-isolation properties can be stated.
* `screen_off_max_freq` is a `static` array that no statement of the C file
  ever assigns to, so it is embedded as a constant.
-/

namespace Power

/-- The four sysfs paths the HAL touches. -/
inductive Path where
  | cpu0   -- /sys/devices/system/cpu/cpu0/cpufreq/scaling_max_freq
  | cpu1   -- /sys/devices/system/cpu/cpu1/cpufreq/scaling_max_freq
  | touch  -- /sys/bus/i2c/drivers/sec_touch/4-004c/mxt1386/suspended
  | mpu    -- /sys/bus/i2c/drivers/mpu3050/0-0068/mpu3050/suspended
  deriving DecidableEq, Repr

/-- The power hints the switch in `p3_power_hint` distinguishes:
`POWER_HINT_VSYNC`, `POWER_HINT_LOW_POWER`, `POWER_HINT_LAUNCH`, and the
`default:` case for every other value. -/
inductive Hint where
  | vsync
  | low_power
  | launch
  | other
  deriving DecidableEq, Repr

/-- `#define MAX_BUF_SZ 10`. -/
def MAX_BUF_SZ : Nat := 10

/-- `static char screen_off_max_freq[MAX_BUF_SZ] = "456000"`:
the 6 digits of "456000" and four trailing NUL bytes. -/
def screen_off_max_freq : List Nat := [52, 53, 54, 48, 48, 48, 0, 0, 0, 0]

/-- `#define LOW_POWER_MAX_FREQ "456000"` (a string literal, 6 bytes). -/
def LOW_POWER_MAX_FREQ : List Nat := [52, 53, 54, 48, 48, 48]

/-- `#define LOW_POWER_MIN_FREQ "150000"` (defined but never used by the
C file). -/
def LOW_POWER_MIN_FREQ : List Nat := [49, 53, 48, 48, 48, 48]

/-- The 10-byte initial value of both `scaling_max_freq` and
`normal_max_freq`: `"1000000"` and three trailing NUL bytes. -/
def default_max_freq : List Nat := [49, 48, 48, 48, 48, 48, 48, 0, 0, 0]

/-- The byte string `"1"` written to the suspend files on screen-off. -/
def one_str : List Nat := [49]

/-- The byte string `"0"` written to the suspend files on resume. -/
def zero_str : List Nat := [48]

/-- C `strlen`: the number of bytes before the first 0 byte (length of the
whole list when it contains no 0 byte). -/
def strlen : List Nat → Nat
  | [] => 0
  | b :: rest => if b = 0 then 0 else strlen rest + 1

/-- The bytes a C string occupies up to (excluding) its NUL terminator:
what `write(fd, s, strlen(s))` transfers. -/
def cstr (s : List Nat) : List Nat := s.take (strlen s)

/-- C `strncmp(a, b, n) == 0`: the comparison walks at most `n` bytes and
stops early, reporting equality, at a NUL byte present in both strings. -/
def strncmp_eq0 : List Nat → List Nat → Nat → Bool
  | _, _, 0 => true
  | [], [], _ + 1 => true
  | [], _ :: _, _ + 1 => false
  | _ :: _, [], _ + 1 => false
  | x :: xs, y :: ys, n + 1 =>
    if x = y then (if x = 0 then true else strncmp_eq0 xs ys n) else false

/-- The simulated sysfs file system: per-path content (`none` = the path is
missing, `open` fails) and per-path success of the read / write syscalls
after a successful open. -/
structure Sys where
  files : Path → Option (List Nat)
  readOk : Path → Bool
  writeOk : Path → Bool

/-- The mutable globals of `power.c` (besides the never-assigned
`screen_off_max_freq`). -/
structure PState where
  scaling_max_freq : List Nat
  normal_max_freq : List Nat
  low_power_mode : Bool
  deriving DecidableEq, Repr

/-- The globals at module load: `scaling_max_freq = normal_max_freq =
"1000000"`, `low_power_mode = false`. -/
def initState : PState :=
  { scaling_max_freq := default_max_freq
    normal_max_freq := default_max_freq
    low_power_mode := false }

/-- `sysfs_read(path, buf, size)`: `none` models a failed open or a failed
read syscall (`len == -1`); otherwise the result is the byte count `len`
(at most `size`, at most the file's length) together with the buffer
contents, whose tail beyond `len` is zero-filled by the `memset` that the
C code performs only when `len < size`. -/
def sysfs_read (sys : Sys) (p : Path) (size : Nat) : Option (Nat × List Nat) :=
  match sys.files p with
  | none => none
  | some content =>
    if sys.readOk p then
      some (min content.length size,
        content.take (min content.length size)
          ++ List.replicate (size - min content.length size) 0)
    else none

/-- `sysfs_write(path, s)`: on success (`open` succeeds and the write
syscall succeeds) the file's content becomes the `strlen(s)` bytes written;
on failure the file system is unchanged.  Every caller in the C file
ignores the returned status, so only the file-system effect is modelled. -/
def sysfs_write (sys : Sys) (p : Path) (s : List Nat) : Sys :=
  if (sys.files p).isSome && sys.writeOk p then
    { sys with files := fun q => if q = p then some (cstr s) else sys.files q }
  else sys

/-- `store_max_freq(max_freq)`: read the live CPU0 scaling_max_freq into a
10-byte buffer; if the read succeeded, the buffer does not begin with the
`strlen(screen_off_max_freq)` leading bytes of `screen_off_max_freq`
(per `strncmp`), and `low_power_mode` is clear, `memcpy` the whole 10-byte
buffer over the target; otherwise leave the target untouched. -/
def store_max_freq (sys : Sys) (st : PState) (max_freq : List Nat) : List Nat :=
  match sysfs_read sys Path.cpu0 MAX_BUF_SZ with
  | none => max_freq
  | some (_, buf) =>
    if strncmp_eq0 buf screen_off_max_freq (strlen screen_off_max_freq) = false
        ∧ st.low_power_mode = false
    then buf
    else max_freq

/-- One trace entry per attempted `sysfs_write` call: the path and the
bytes handed to the write syscall. -/
abbrev Trace := List (Path × List Nat)

/-- `p3_power_init`: capture a baseline into `scaling_max_freq`; no sysfs
writes. -/
def p3_power_init (sys : Sys) (st : PState) : Sys × PState × Trace :=
  (sys, { st with scaling_max_freq := store_max_freq sys st st.scaling_max_freq }, [])

/-- `p3_power_set_interactive(on)`: three branches — screen off, screen on
in low-power mode, screen on in normal mode — each a straight-line sequence
of `sysfs_write` calls, preceded by a baseline capture in the first two. -/
def p3_power_set_interactive (sys : Sys) (st : PState) (screenOn : Bool) :
    Sys × PState × Trace :=
  if screenOn = false then
    let st1 := { st with scaling_max_freq := store_max_freq sys st st.scaling_max_freq }
    let s1 := sysfs_write sys Path.cpu0 screen_off_max_freq
    let s2 := sysfs_write s1 Path.cpu1 screen_off_max_freq
    let s3 := sysfs_write s2 Path.touch one_str
    let s4 := sysfs_write s3 Path.mpu one_str
    (s4, st1,
      [(Path.cpu0, cstr screen_off_max_freq), (Path.cpu1, cstr screen_off_max_freq),
       (Path.touch, cstr one_str), (Path.mpu, cstr one_str)])
  else if st.low_power_mode then
    let st1 := { st with scaling_max_freq := store_max_freq sys st st.scaling_max_freq }
    let s1 := sysfs_write sys Path.cpu0 LOW_POWER_MAX_FREQ
    let s2 := sysfs_write s1 Path.cpu1 LOW_POWER_MAX_FREQ
    (s2, st1,
      [(Path.cpu0, cstr LOW_POWER_MAX_FREQ), (Path.cpu1, cstr LOW_POWER_MAX_FREQ)])
  else
    let s1 := sysfs_write sys Path.cpu0 st.scaling_max_freq
    let s2 := sysfs_write s1 Path.cpu1 st.scaling_max_freq
    let s3 := sysfs_write s2 Path.touch zero_str
    let s4 := sysfs_write s3 Path.mpu zero_str
    (s4, st,
      [(Path.cpu0, cstr st.scaling_max_freq), (Path.cpu1, cstr st.scaling_max_freq),
       (Path.touch, cstr zero_str), (Path.mpu, cstr zero_str)])

/-- `p3_power_hint(hint, data)`: only `POWER_HINT_LOW_POWER` has an effect.
With non-null `data` the baseline is captured into `normal_max_freq`
*before* `low_power_mode` is raised, then the low-power cap is written to
both CPU files; with null `data` the flag is cleared and `normal_max_freq`
is written back.  `data` is modelled as the boolean "data is non-null". -/
def p3_power_hint (sys : Sys) (st : PState) (hint : Hint) (data : Bool) :
    Sys × PState × Trace :=
  match hint with
  | Hint.low_power =>
    if data then
      let st1 := { st with normal_max_freq := store_max_freq sys st st.normal_max_freq }
      let st2 := { st1 with low_power_mode := true }
      let s1 := sysfs_write sys Path.cpu0 LOW_POWER_MAX_FREQ
      let s2 := sysfs_write s1 Path.cpu1 LOW_POWER_MAX_FREQ
      (s2, st2,
        [(Path.cpu0, cstr LOW_POWER_MAX_FREQ), (Path.cpu1, cstr LOW_POWER_MAX_FREQ)])
    else
      let st1 := { st with low_power_mode := false }
      let s1 := sysfs_write sys Path.cpu0 st.normal_max_freq
      let s2 := sysfs_write s1 Path.cpu1 st.normal_max_freq
      (s2, st1,
        [(Path.cpu0, cstr st.normal_max_freq), (Path.cpu1, cstr st.normal_max_freq)])
  | _ => (sys, st, [])

/-- An invocation of one of the three entry points. -/
inductive Op where
  | initOp
  | setInteractive (screenOn : Bool)
  | powerHint (h : Hint) (data : Bool)

/-- Dispatch an entry-point invocation. -/
def runOp (sys : Sys) (st : PState) : Op → Sys × PState × Trace
  | Op.initOp => p3_power_init sys st
  | Op.setInteractive b => p3_power_set_interactive sys st b
  | Op.powerHint h d => p3_power_hint sys st h d

/-- Global states reachable from the load-time state by any sequence of
entry-point calls; the environment may present an arbitrary file system
(arbitrary file contents and failure pattern) at every call. -/
inductive Reachable : PState → Prop
  | base : Reachable initState
  | step (st : PState) (h : Reachable st) (sys : Sys) (op : Op) :
      Reachable (runOp sys st op).2.1

/-- Specification-side restatement of the baseline capture, written from
the spec's words: copy the value read from the CPU0 max-frequency file into
the target exactly when the read succeeded, the value's leading
`strlen(screenOffFrequency)` characters differ from `screenOffFrequency`,
and low-power mode is inactive; otherwise leave the target unchanged.
(The prefix test is stated as plain list equality of the leading bytes,
where the implementation uses `strncmp`.) -/
def captureBaselineSpec (sys : Sys) (st : PState) (target : List Nat) : List Nat :=
  match sysfs_read sys Path.cpu0 MAX_BUF_SZ with
  | none => target
  | some (_, buf) =>
    if buf.take (strlen screen_off_max_freq)
          ≠ screen_off_max_freq.take (strlen screen_off_max_freq)
        ∧ st.low_power_mode = false
    then buf
    else target

/-- The leading bytes of the screen-off constant that the `strncmp` guard
compares: "456000". -/
def screenOffHead : List Nat := [52, 53, 54, 48, 48, 48]

/-- A buffer value that a guard-passing baseline capture can produce: the
zero-padded result of a successful read of the CPU0 max-frequency file
whose `strncmp` comparison against `screen_off_max_freq` reported a
difference. -/
def CapturedNormal (b : List Nat) : Prop :=
  ∃ sys len, sysfs_read sys Path.cpu0 MAX_BUF_SZ = some (len, b) ∧
    strncmp_eq0 b screen_off_max_freq (strlen screen_off_max_freq) = false

/-- The sequence of write attempts each entry point performs, read off the
straight-line C code; it depends only on the operation and on the global
state, never on the file system or on which individual calls fail. -/
def expectedTrace (st : PState) : Op → Trace
  | Op.initOp => []
  | Op.setInteractive screenOn =>
    if screenOn = false then
      [(Path.cpu0, cstr screen_off_max_freq), (Path.cpu1, cstr screen_off_max_freq),
       (Path.touch, cstr one_str), (Path.mpu, cstr one_str)]
    else if st.low_power_mode then
      [(Path.cpu0, cstr LOW_POWER_MAX_FREQ), (Path.cpu1, cstr LOW_POWER_MAX_FREQ)]
    else
      [(Path.cpu0, cstr st.scaling_max_freq), (Path.cpu1, cstr st.scaling_max_freq),
       (Path.touch, cstr zero_str), (Path.mpu, cstr zero_str)]
  | Op.powerHint h d =>
    match h with
    | Hint.low_power =>
      if d then
        [(Path.cpu0, cstr LOW_POWER_MAX_FREQ), (Path.cpu1, cstr LOW_POWER_MAX_FREQ)]
      else
        [(Path.cpu0, cstr st.normal_max_freq), (Path.cpu1, cstr st.normal_max_freq)]
    | _ => []

/-- A file system where every path is present, readable and writable, with
the given contents. -/
def mkSys (f : Path → List Nat) : Sys :=
  { files := fun p => some (f p)
    readOk := fun _ => true
    writeOk := fun _ => true }

/-- A healthy boot-time file system: both CPU files read "1000000", the
suspend files read "0". -/
def bootSys : Sys :=
  mkSys fun p =>
    match p with
    | Path.cpu0 => [49, 48, 48, 48, 48, 48, 48]
    | Path.cpu1 => [49, 48, 48, 48, 48, 48, 48]
    | _ => [48]

/-- A CPU0 file whose content is 10 bytes long with no NUL byte anywhere:
the ASCII digits of "1200000000". -/
def fullContent : List Nat := [49, 50, 48, 48, 48, 48, 48, 48, 48, 48]

/-- A file system whose CPU0 file holds `fullContent`; the other paths are
missing. -/
def fullSys : Sys :=
  { files := fun p => if p = Path.cpu0 then some fullContent else none
    readOk := fun _ => true
    writeOk := fun _ => true }

/-! ### Helper lemmas -/

theorem sysfs_write_readOk (sys : Sys) (p : Path) (s : List Nat) :
    (sysfs_write sys p s).readOk = sys.readOk := by
  unfold sysfs_write; split <;> rfl

theorem sysfs_write_writeOk (sys : Sys) (p : Path) (s : List Nat) :
    (sysfs_write sys p s).writeOk = sys.writeOk := by
  unfold sysfs_write; split <;> rfl

theorem sysfs_write_files_ne (sys : Sys) (p q : Path) (s : List Nat)
    (h : q ≠ p) : (sysfs_write sys p s).files q = sys.files q := by
  unfold sysfs_write; split
  · simp [h]
  · rfl

theorem sysfs_write_files_self (sys : Sys) (p : Path) (s : List Nat)
    (h1 : (sys.files p).isSome = true) (h2 : sys.writeOk p = true) :
    (sysfs_write sys p s).files p = some (cstr s) := by
  unfold sysfs_write
  rw [if_pos (by simp [h1, h2])]
  simp

theorem sysfs_write_isSome (sys : Sys) (p q : Path) (s : List Nat)
    (h : (sys.files q).isSome = true) :
    ((sysfs_write sys p s).files q).isSome = true := by
  unfold sysfs_write; split
  · by_cases hq : q = p <;> simp [hq, h]
  · exact h

/-- When the first `n` bytes of `b` contain no NUL, `strncmp(a, b, n) == 0`
is exactly equality of the leading `n` bytes. -/
theorem strncmp_eq0_eq_take (n : Nat) (a b : List Nat)
    (hb : ∀ x ∈ b.take n, x ≠ 0) (hlen : n ≤ b.length) :
    strncmp_eq0 a b n = decide (a.take n = b.take n) := by
  induction n generalizing a b with
  | zero => simp [strncmp_eq0]
  | succ n ih =>
    cases b with
    | nil => simp at hlen
    | cons y ys =>
      have hy : y ≠ 0 := hb y (by simp)
      cases a with
      | nil => simp [strncmp_eq0]
      | cons x xs =>
        have hb' : ∀ z ∈ ys.take n, z ≠ 0 := fun z hz => hb z (by simp [hz])
        have hlen' : n ≤ ys.length := Nat.le_of_succ_le_succ hlen
        by_cases hxy : x = y
        · subst hxy
          simp [strncmp_eq0, hy, ih xs ys hb' hlen']
        · simp [strncmp_eq0, hxy]

/-- The trace of write attempts of the screen-off branch of
`p3_power_set_interactive`. -/
def offTrace : Trace :=
  [(Path.cpu0, screenOffHead), (Path.cpu1, screenOffHead),
   (Path.touch, one_str), (Path.mpu, one_str)]

/-- A global state that is in low-power mode (used to instantiate
theorems about the low-power flag at a concrete input). -/
def lpState : PState :=
  { scaling_max_freq := default_max_freq
    normal_max_freq := default_max_freq
    low_power_mode := true }

/-! ### Helper lemmas (continued) -/

theorem store_max_freq_only_reads (sysA sysB : Sys) (stA stB : PState)
    (tgt : List Nat)
    (h : sysfs_read sysB Path.cpu0 MAX_BUF_SZ = sysfs_read sysA Path.cpu0 MAX_BUF_SZ)
    (hl : stB.low_power_mode = stA.low_power_mode) :
    store_max_freq sysB stB tgt = store_max_freq sysA stA tgt := by
  unfold store_max_freq
  rw [h, hl]

/-- Re-capturing on top of a just-captured baseline cannot change it, as
long as the second read either fails, yields the same value as the first,
or yields the screen-off value. -/
theorem store_max_freq_stable (sysA sysB : Sys) (st : PState) (tgt : List Nat)
    (hcase : sysfs_read sysB Path.cpu0 MAX_BUF_SZ = sysfs_read sysA Path.cpu0 MAX_BUF_SZ
      ∨ sysfs_read sysB Path.cpu0 MAX_BUF_SZ = none
      ∨ sysfs_read sysB Path.cpu0 MAX_BUF_SZ = some (6, screen_off_max_freq)) :
    store_max_freq sysB { st with scaling_max_freq := store_max_freq sysA st tgt }
        (store_max_freq sysA st tgt)
      = store_max_freq sysA st tgt := by
  rcases hcase with hsame | hnone | hscreen
  · rw [store_max_freq_only_reads sysA sysB st
      { st with scaling_max_freq := store_max_freq sysA st tgt } _ hsame rfl]
    unfold store_max_freq
    cases hr : sysfs_read sysA Path.cpu0 MAX_BUF_SZ with
    | none => rfl
    | some r =>
      obtain ⟨len, buf⟩ := r
      by_cases hc : strncmp_eq0 buf screen_off_max_freq (strlen screen_off_max_freq) = false
          ∧ st.low_power_mode = false
      · simp [hc]
      · simp [hc]
  · unfold store_max_freq
    rw [hnone]
  · unfold store_max_freq
    rw [hscreen]
    simp [show strncmp_eq0 screen_off_max_freq screen_off_max_freq
        (strlen screen_off_max_freq) = true from by decide]

theorem set_interactive_off_sys_readOk (sys : Sys) (st : PState) :
    (p3_power_set_interactive sys st false).1.readOk = sys.readOk := by
  simp only [p3_power_set_interactive]
  simp [sysfs_write_readOk]

theorem set_interactive_off_sys_files_cpu0 (sys : Sys) (st : PState) :
    (p3_power_set_interactive sys st false).1.files Path.cpu0
      = (sysfs_write sys Path.cpu0 screen_off_max_freq).files Path.cpu0 := by
  simp only [p3_power_set_interactive, if_true, eq_self_iff_true]
  rw [sysfs_write_files_ne _ Path.mpu Path.cpu0 _ (by decide),
    sysfs_write_files_ne _ Path.touch Path.cpu0 _ (by decide),
    sysfs_write_files_ne _ Path.cpu1 Path.cpu0 _ (by decide)]

/-! ### Claims -/

/-- Claim C1: `store_max_freq` copies the live CPU0 max-frequency value into the
target iff the read succeeded, the value's leading
`strlen(screenOffFrequency)` characters differ from `screenOffFrequency`,
and `lowPowerModeActive` is false; in every other case the target is left
unchanged — it coincides with the spec-side `captureBaselineSpec` on every
file system, state and target. -/
theorem store_max_freq_matches_spec (sys : Sys) (st : PState) (target : List Nat) :
    store_max_freq sys st target = captureBaselineSpec sys st target := by
  cases h : sysfs_read sys Path.cpu0 MAX_BUF_SZ with
  | none => simp [store_max_freq, captureBaselineSpec, h]
  | some r =>
    obtain ⟨len, buf⟩ := r
    have hb : ∀ x ∈ screen_off_max_freq.take (strlen screen_off_max_freq), x ≠ 0 := by
      decide
    have hlen : strlen screen_off_max_freq ≤ screen_off_max_freq.length := by decide
    simp only [store_max_freq, captureBaselineSpec, h]
    rw [strncmp_eq0_eq_take (strlen screen_off_max_freq) buf screen_off_max_freq hb hlen]
    by_cases hq : buf.take (strlen screen_off_max_freq)
        = screen_off_max_freq.take (strlen screen_off_max_freq) <;>
      simp [hq]

/-- Claim C6: `setInteractive(false)` captures a baseline into
`scaling_max_freq` from the file system as it was before any write, leaves
the other globals alone, and then attempts, in this order: the screen-off
frequency "456000" to the CPU0 file, "456000" to the CPU1 file, "1" to the
touch suspend file, and "1" to the motion-sensor suspend file. -/
theorem set_interactive_off_sequence (sys : Sys) (st : PState) :
    (p3_power_set_interactive sys st false).2.1
      = { st with scaling_max_freq := store_max_freq sys st st.scaling_max_freq } ∧
    (p3_power_set_interactive sys st false).2.2 = offTrace :=
  ⟨rfl, rfl⟩

/-- Claim C7: the sequence of write attempts of every entry point is a
function of the operation and the global state only — it does not depend
on the file system, hence not on which individual opens, reads or writes
fail; every write in each branch's sequence is therefore attempted under
every failure combination (in particular, in `setInteractive(false)` the
motion-sensor suspend write is attempted after the touch suspend write even
when the latter fails), and every entry point is a total function, so it
returns normally. -/
theorem writes_attempted_regardless_of_failures (sys : Sys) (st : PState) (op : Op) :
    (runOp sys st op).2.2 = expectedTrace st op := by
  cases op with
  | initOp => rfl
  | setInteractive b =>
    cases b with
    | false => rfl
    | true =>
      by_cases hl : st.low_power_mode <;>
        simp [runOp, p3_power_set_interactive, expectedTrace, hl]
  | powerHint h d => cases h <;> cases d <;> rfl

/-- Claim C9: a hint other than the low-power hint (vsync, launch, or any
unknown hint) leaves the global state (the low-power flag and the stored
frequency strings) and the file system unchanged and attempts no sysfs
write. -/
theorem other_hints_no_effect (sys : Sys) (st : PState) (d : Bool) :
    p3_power_hint sys st Hint.vsync d = (sys, st, []) ∧
    p3_power_hint sys st Hint.launch d = (sys, st, []) ∧
    p3_power_hint sys st Hint.other d = (sys, st, []) :=
  ⟨rfl, rfl, rfl⟩

/-- Claim C10: enabling the low-power hint while `low_power_mode` is
already set leaves `normal_max_freq` unchanged: the capture runs before the
flag is (re)assigned, and the guard in `store_max_freq` rejects the store
because the flag is already true. -/
theorem repeated_low_power_enable_preserves_normal (sys : Sys) (st : PState)
    (h : st.low_power_mode = true) :
    ((p3_power_hint sys st Hint.low_power true).2.1).normal_max_freq
      = st.normal_max_freq := by
  have hstore : store_max_freq sys st st.normal_max_freq = st.normal_max_freq := by
    unfold store_max_freq
    cases hr : sysfs_read sys Path.cpu0 MAX_BUF_SZ with
    | none => rfl
    | some r =>
      obtain ⟨len, buf⟩ := r
      simp [h]
  simpa [p3_power_hint] using hstore

theorem repeated_low_power_enable_preserves_normal_witness :
    ((p3_power_hint bootSys lpState Hint.low_power true).2.1).normal_max_freq
      = lpState.normal_max_freq :=
  repeated_low_power_enable_preserves_normal bootSys lpState rfl

/-- Claim C4: calling `setInteractive(false)` twice in a row (the second
call seeing the file system as the first call left it, i.e. with the CPU0
file reflecting the first call's write when that write succeeded) attempts
the screen-off writes to both CPU files on both calls, and the second
call's capture leaves `scaling_max_freq` exactly as the first call stored
it: the re-read yields the screen-off value (or fails, or repeats the first
read), and the guard rejects it. -/
theorem set_interactive_off_twice (sys : Sys) (st : PState) :
    (p3_power_set_interactive sys st false).2.2 = offTrace ∧
    (p3_power_set_interactive (p3_power_set_interactive sys st false).1
        (p3_power_set_interactive sys st false).2.1 false).2.2 = offTrace ∧
    (p3_power_set_interactive (p3_power_set_interactive sys st false).1
        (p3_power_set_interactive sys st false).2.1 false).2.1.scaling_max_freq
      = (p3_power_set_interactive sys st false).2.1.scaling_max_freq := by
  refine ⟨rfl, rfl, ?_⟩
  show store_max_freq (p3_power_set_interactive sys st false).1
      { st with scaling_max_freq := store_max_freq sys st st.scaling_max_freq }
      (store_max_freq sys st st.scaling_max_freq)
    = store_max_freq sys st st.scaling_max_freq
  apply store_max_freq_stable
  by_cases hw : ((sys.files Path.cpu0).isSome && sys.writeOk Path.cpu0) = true
  · -- the first call's CPU0 write succeeded: the re-read sees "456000"
    have hself : (sysfs_write sys Path.cpu0 screen_off_max_freq).files Path.cpu0
        = some (cstr screen_off_max_freq) := by
      rw [Bool.and_eq_true] at hw
      exact sysfs_write_files_self sys Path.cpu0 screen_off_max_freq hw.1 hw.2
    have hfiles : (p3_power_set_interactive sys st false).1.files Path.cpu0
        = some screenOffHead := by
      rw [set_interactive_off_sys_files_cpu0, hself]; rfl
    by_cases hro : sys.readOk Path.cpu0 = true
    · right; right
      unfold sysfs_read
      rw [hfiles, set_interactive_off_sys_readOk, hro]
      simp [screenOffHead, screen_off_max_freq, MAX_BUF_SZ, List.replicate]
    · right; left
      unfold sysfs_read
      rw [hfiles, set_interactive_off_sys_readOk]
      simp [hro]
  · -- the first call's CPU0 write failed: the re-read repeats the first read
    left
    have hfiles : (p3_power_set_interactive sys st false).1.files Path.cpu0
        = sys.files Path.cpu0 := by
      rw [set_interactive_off_sys_files_cpu0]
      unfold sysfs_write
      rw [if_neg (by simpa using hw)]
    unfold sysfs_read
    rw [hfiles, set_interactive_off_sys_readOk]

/-- Claim C8 counterexample: a successful `sysfs_read` that fills the whole
buffer performs no zero padding, so the resulting buffer need not contain a
zero byte within its size — here the CPU0 file holds ten non-NUL bytes and
the returned 10-byte buffer has no zero byte. -/
theorem sysfs_read_full_buffer_no_nul :
    sysfs_read fullSys Path.cpu0 MAX_BUF_SZ = some (10, fullContent) ∧
    0 ∉ fullContent := by
  decide

/-- Claim C8 (amended): a successful `sysfs_read(path, buf, size)` that
reads `n` bytes returns a buffer of exactly `size` bytes whose positions
from `n` up to `size` are all zero; whenever `n < size` (the only case in
which the C code runs its `memset`) the buffer therefore contains a zero
byte within its size.  (When `n = size` no padding occurs and the buffer
may contain no zero byte, as the counterexample above shows.) -/
theorem sysfs_read_zero_pads (sys : Sys) (p : Path) (size len : Nat)
    (buf : List Nat) (h : sysfs_read sys p size = some (len, buf)) :
    buf.length = size ∧
    (∀ i, len ≤ i → i < size → buf[i]? = some 0) ∧
    (len < size → 0 ∈ buf) := by
  cases hf : sys.files p with
  | none => simp [sysfs_read, hf] at h
  | some content =>
    by_cases hr : sys.readOk p = true
    · simp only [sysfs_read, hf, hr, if_true, Option.some.injEq, Prod.mk.injEq] at h
      obtain ⟨h1, h2⟩ := h
      subst h2
      have hmin : min content.length size ≤ content.length := Nat.min_le_left _ _
      have htk : (content.take (min content.length size)).length
          = min content.length size := by
        simp [List.length_take]
      constructor
      · simp [List.length_take]
      constructor
      · intro i hi1 hi2
        rw [List.getElem?_append_right (by omega)]
        rw [List.getElem?_replicate]
        rw [if_pos (by omega)]
      · intro hlt
        refine List.mem_append.mpr (Or.inr ?_)
        rw [List.mem_replicate]
        omega
    · simp [sysfs_read, hf, hr] at h

theorem store_max_freq_cases (sys : Sys) (st : PState) (tgt : List Nat) :
    store_max_freq sys st tgt = tgt ∨ CapturedNormal (store_max_freq sys st tgt) := by
  cases hr : sysfs_read sys Path.cpu0 MAX_BUF_SZ with
  | none => left; simp [store_max_freq, hr]
  | some r =>
    obtain ⟨len, buf⟩ := r
    by_cases hc : strncmp_eq0 buf screen_off_max_freq (strlen screen_off_max_freq) = false
        ∧ st.low_power_mode = false
    · right
      simp only [store_max_freq, hr]
      rw [if_pos hc]
      exact ⟨sys, len, hr, hc.1⟩
    · left
      simp only [store_max_freq, hr]
      rw [if_neg hc]

theorem capturedNormal_take_ne (b : List Nat) (h : CapturedNormal b) :
    b.take (strlen screen_off_max_freq) ≠ screenOffHead := by
  obtain ⟨sys, len, _, hne⟩ := h
  have hb : ∀ x ∈ screen_off_max_freq.take (strlen screen_off_max_freq), x ≠ 0 := by
    decide
  have hlen : strlen screen_off_max_freq ≤ screen_off_max_freq.length := by decide
  rw [strncmp_eq0_eq_take _ b screen_off_max_freq hb hlen] at hne
  intro hq
  have hhead : screen_off_max_freq.take (strlen screen_off_max_freq) = screenOffHead := by
    decide
  rw [hhead, hq] at hne
  simp at hne

/-- Each entry point either leaves `scaling_max_freq` alone or replaces it
with the result of a baseline capture against the pre-call file system. -/
theorem runOp_scaling (sys : Sys) (st : PState) (op : Op) :
    (runOp sys st op).2.1.scaling_max_freq = st.scaling_max_freq ∨
    (runOp sys st op).2.1.scaling_max_freq
      = store_max_freq sys st st.scaling_max_freq := by
  cases op with
  | initOp => right; rfl
  | setInteractive b =>
    cases b with
    | false => right; rfl
    | true =>
      by_cases hl : st.low_power_mode
      · right; simp [runOp, p3_power_set_interactive, hl]
      · left; simp [runOp, p3_power_set_interactive, hl]
  | powerHint h d => cases h <;> cases d <;> left <;> rfl

/-- Claim C2: in every state reachable from the load-time state by any
sequence of entry-point calls, under arbitrary simulated file contents and
failure patterns, `scaling_max_freq` never begins with the screen-off /
low-power cap value "456000" (so it never holds that value); it is either
still the initial default "1000000" or a value that a guard-passing
baseline capture produced. -/
theorem scaling_max_freq_invariant (st : PState) (h : Reachable st) :
    st.scaling_max_freq.take (strlen screen_off_max_freq) ≠ screenOffHead ∧
    (st.scaling_max_freq = default_max_freq ∨ CapturedNormal st.scaling_max_freq) := by
  induction h with
  | base => exact ⟨by decide, Or.inl rfl⟩
  | step st' h sys op ih =>
    rcases runOp_scaling sys st' op with heq | heq
    · rw [heq]; exact ih
    · rw [heq]
      rcases store_max_freq_cases sys st' st'.scaling_max_freq with hsame | hcap
      · rw [hsame]; exact ih
      · exact ⟨capturedNormal_take_ne _ hcap, Or.inr hcap⟩

theorem scaling_max_freq_invariant_witness :
    initState.scaling_max_freq.take (strlen screen_off_max_freq) ≠ screenOffHead ∧
    (initState.scaling_max_freq = default_max_freq ∨
      CapturedNormal initState.scaling_max_freq) :=
  scaling_max_freq_invariant initState Reachable.base

theorem set_interactive_off_isSome (sys : Sys) (st : PState) (q : Path)
    (h : (sys.files q).isSome = true) :
    ((p3_power_set_interactive sys st false).1.files q).isSome = true := by
  simp only [p3_power_set_interactive, if_true, eq_self_iff_true]
  exact sysfs_write_isSome _ _ _ _
    (sysfs_write_isSome _ _ _ _ (sysfs_write_isSome _ _ _ _ (sysfs_write_isSome _ _ _ _ h)))

theorem set_interactive_off_writeOk (sys : Sys) (st : PState) :
    (p3_power_set_interactive sys st false).1.writeOk = sys.writeOk := by
  simp only [p3_power_set_interactive, if_true, eq_self_iff_true]
  rw [sysfs_write_writeOk, sysfs_write_writeOk, sysfs_write_writeOk, sysfs_write_writeOk]

/-- In the resume branch (`on == true`, low-power mode clear), both CPU
files end up holding the remembered `scaling_max_freq`, provided both CPU
files can be opened and written. -/
theorem set_interactive_on_files (sys : Sys) (st : PState)
    (hlp : st.low_power_mode = false)
    (h0 : (sys.files Path.cpu0).isSome = true) (h0w : sys.writeOk Path.cpu0 = true)
    (h1 : (sys.files Path.cpu1).isSome = true) (h1w : sys.writeOk Path.cpu1 = true) :
    (p3_power_set_interactive sys st true).1.files Path.cpu0
        = some (cstr st.scaling_max_freq) ∧
    (p3_power_set_interactive sys st true).1.files Path.cpu1
        = some (cstr st.scaling_max_freq) := by
  simp only [p3_power_set_interactive, hlp, Bool.true_eq_false, Bool.false_eq_true,
    if_false]
  constructor
  · rw [sysfs_write_files_ne _ Path.mpu Path.cpu0 _ (by decide),
      sysfs_write_files_ne _ Path.touch Path.cpu0 _ (by decide),
      sysfs_write_files_ne _ Path.cpu1 Path.cpu0 _ (by decide),
      sysfs_write_files_self sys Path.cpu0 _ h0 h0w]
  · rw [sysfs_write_files_ne _ Path.mpu Path.cpu1 _ (by decide),
      sysfs_write_files_ne _ Path.touch Path.cpu1 _ (by decide),
      sysfs_write_files_self _ Path.cpu1 _
        (sysfs_write_isSome _ _ _ _ h1) (by rw [sysfs_write_writeOk]; exact h1w)]

/-- Claim C3: with low-power mode clear and both CPU files present and
writable, `setInteractive(false)` followed by `setInteractive(true)` leaves
both CPU max-frequency files holding `scaling_max_freq` as it stood after
the capture performed by the `setInteractive(false)` call (its content as a
C string, i.e. the bytes up to the NUL terminator). -/
theorem interactive_round_trip (sys : Sys) (st : PState)
    (hlp : st.low_power_mode = false)
    (h0 : (sys.files Path.cpu0).isSome = true) (h0w : sys.writeOk Path.cpu0 = true)
    (h1 : (sys.files Path.cpu1).isSome = true) (h1w : sys.writeOk Path.cpu1 = true) :
    (p3_power_set_interactive (p3_power_set_interactive sys st false).1
        (p3_power_set_interactive sys st false).2.1 true).1.files Path.cpu0
      = some (cstr ((p3_power_set_interactive sys st false).2.1.scaling_max_freq)) ∧
    (p3_power_set_interactive (p3_power_set_interactive sys st false).1
        (p3_power_set_interactive sys st false).2.1 true).1.files Path.cpu1
      = some (cstr ((p3_power_set_interactive sys st false).2.1.scaling_max_freq)) := by
  apply set_interactive_on_files
  · exact hlp
  · exact set_interactive_off_isSome sys st Path.cpu0 h0
  · rw [set_interactive_off_writeOk]; exact h0w
  · exact set_interactive_off_isSome sys st Path.cpu1 h1
  · rw [set_interactive_off_writeOk]; exact h1w

theorem interactive_round_trip_witness :
    (p3_power_set_interactive (p3_power_set_interactive bootSys initState false).1
        (p3_power_set_interactive bootSys initState false).2.1 true).1.files Path.cpu0
      = some (cstr ((p3_power_set_interactive bootSys initState false).2.1.scaling_max_freq)) ∧
    (p3_power_set_interactive (p3_power_set_interactive bootSys initState false).1
        (p3_power_set_interactive bootSys initState false).2.1 true).1.files Path.cpu1
      = some (cstr ((p3_power_set_interactive bootSys initState false).2.1.scaling_max_freq)) :=
  interactive_round_trip bootSys initState rfl rfl rfl rfl rfl

theorem hint_enable_isSome (sys : Sys) (st : PState) (q : Path)
    (h : (sys.files q).isSome = true) :
    ((p3_power_hint sys st Hint.low_power true).1.files q).isSome = true := by
  simp only [p3_power_hint, if_true, eq_self_iff_true]
  exact sysfs_write_isSome _ _ _ _ (sysfs_write_isSome _ _ _ _ h)

theorem hint_enable_writeOk (sys : Sys) (st : PState) :
    (p3_power_hint sys st Hint.low_power true).1.writeOk = sys.writeOk := by
  simp only [p3_power_hint, if_true, eq_self_iff_true]
  rw [sysfs_write_writeOk, sysfs_write_writeOk]

/-- The disable branch of the low-power hint clears the flag and writes the
remembered `normal_max_freq` back to both CPU files, provided both CPU
files are present and writable. -/
theorem hint_disable_files (sys : Sys) (st : PState)
    (h0 : (sys.files Path.cpu0).isSome = true) (h0w : sys.writeOk Path.cpu0 = true)
    (h1 : (sys.files Path.cpu1).isSome = true) (h1w : sys.writeOk Path.cpu1 = true) :
    (p3_power_hint sys st Hint.low_power false).1.files Path.cpu0
        = some (cstr st.normal_max_freq) ∧
    (p3_power_hint sys st Hint.low_power false).1.files Path.cpu1
        = some (cstr st.normal_max_freq) ∧
    (p3_power_hint sys st Hint.low_power false).2.1.low_power_mode = false := by
  refine ⟨?_, ?_, rfl⟩
  · show (sysfs_write (sysfs_write sys Path.cpu0 st.normal_max_freq)
        Path.cpu1 st.normal_max_freq).files Path.cpu0 = some (cstr st.normal_max_freq)
    rw [sysfs_write_files_ne _ Path.cpu1 Path.cpu0 _ (by decide),
      sysfs_write_files_self sys Path.cpu0 _ h0 h0w]
  · show (sysfs_write (sysfs_write sys Path.cpu0 st.normal_max_freq)
        Path.cpu1 st.normal_max_freq).files Path.cpu1 = some (cstr st.normal_max_freq)
    rw [sysfs_write_files_self _ Path.cpu1 _
      (sysfs_write_isSome _ _ _ _ h1) (by rw [sysfs_write_writeOk]; exact h1w)]

/-- Claim C5: with both CPU files present and writable, enabling and then
disabling the low-power hint ends with both CPU max-frequency files holding
`normal_max_freq` as captured when the enabling hint was processed (its
content as a C string), and with the low-power flag clear. -/
theorem low_power_hint_toggle (sys : Sys) (st : PState)
    (h0 : (sys.files Path.cpu0).isSome = true) (h0w : sys.writeOk Path.cpu0 = true)
    (h1 : (sys.files Path.cpu1).isSome = true) (h1w : sys.writeOk Path.cpu1 = true) :
    (p3_power_hint (p3_power_hint sys st Hint.low_power true).1
        (p3_power_hint sys st Hint.low_power true).2.1 Hint.low_power false).1.files Path.cpu0
      = some (cstr ((p3_power_hint sys st Hint.low_power true).2.1.normal_max_freq)) ∧
    (p3_power_hint (p3_power_hint sys st Hint.low_power true).1
        (p3_power_hint sys st Hint.low_power true).2.1 Hint.low_power false).1.files Path.cpu1
      = some (cstr ((p3_power_hint sys st Hint.low_power true).2.1.normal_max_freq)) ∧
    (p3_power_hint (p3_power_hint sys st Hint.low_power true).1
        (p3_power_hint sys st Hint.low_power true).2.1 Hint.low_power false).2.1.low_power_mode
      = false := by
  apply hint_disable_files
  · exact hint_enable_isSome sys st Path.cpu0 h0
  · rw [hint_enable_writeOk]; exact h0w
  · exact hint_enable_isSome sys st Path.cpu1 h1
  · rw [hint_enable_writeOk]; exact h1w

theorem low_power_hint_toggle_witness :
    (p3_power_hint (p3_power_hint bootSys initState Hint.low_power true).1
        (p3_power_hint bootSys initState Hint.low_power true).2.1
        Hint.low_power false).1.files Path.cpu0
      = some (cstr ((p3_power_hint bootSys initState Hint.low_power true).2.1.normal_max_freq)) ∧
    (p3_power_hint (p3_power_hint bootSys initState Hint.low_power true).1
        (p3_power_hint bootSys initState Hint.low_power true).2.1
        Hint.low_power false).1.files Path.cpu1
      = some (cstr ((p3_power_hint bootSys initState Hint.low_power true).2.1.normal_max_freq)) ∧
    (p3_power_hint (p3_power_hint bootSys initState Hint.low_power true).1
        (p3_power_hint bootSys initState Hint.low_power true).2.1
        Hint.low_power false).2.1.low_power_mode = false :=
  low_power_hint_toggle bootSys initState rfl rfl rfl rfl

theorem sysfs_read_zero_pads_witness :
    ([49, 48, 48, 48, 48, 48, 48, 0, 0, 0] : List Nat).length = 10 ∧
    (∀ i, 7 ≤ i → i < 10 →
      ([49, 48, 48, 48, 48, 48, 48, 0, 0, 0] : List Nat)[i]? = some 0) ∧
    (7 < 10 → 0 ∈ ([49, 48, 48, 48, 48, 48, 48, 0, 0, 0] : List Nat)) :=
  sysfs_read_zero_pads bootSys Path.cpu0 10 7
    [49, 48, 48, 48, 48, 48, 48, 0, 0, 0] (by decide)

end Power
